import Mathlib

/-!
Verification of the fact-depletion state machine of the Facts-about-Google
webhook fulfillment.  The repository contains three generations of the same
handler; they are embedded here in three namespaces:

* `Functions`  — `src/functions/index.js` (ApiAiApp version, `Set`-based state);
* `Legacy`     — `src/index.js` (ApiAiAssistant version);
* `Dialogflow` — the DialogflowApp version (array-based `getRandomFact`).

Modelling conventions:

* A JavaScript `Set` of strings is modelled as an insertion-ordered duplicate
  free `List String`; `new Set(array)` is `jsNewSet`, `Set.prototype.delete`
  is `List.erase` (on duplicate-free lists this is exact deletion) and
  `Array.from` is the identity.
* `Math.random ()` is modelled by a rational draw `q` (assumed in `[0,1)`
  where a claim needs it); `Math.floor` is `Int.floor`.
* `app.data` (per-session storage) is `SessionData`; the module-level catalog
  constants, which the code can mutate through aliasing, are a `Globals`
  record, initially `Globals.init`.
* A handler is a function `Globals → SessionData → Request → Globals ×
  SessionData × Response`.  `Response` records the turn kind (`ask` =
  continuing, `tell` = conversation-ending, `silent` = the handler returned
  without answering), the simple-response/card texts, the suggestion chips,
  the emitted context updates and the `console.error` logs.  Card images,
  buttons and link-outs are pure rendering and are not modelled; a basic
  card's body text is kept as one of the `messages`.
-/

/-- JavaScript truthiness of a `string | null | undefined` value:
`null` / `undefined` and the empty string are falsy. -/
def jsTruthy : Option String → Bool
  | none => false
  | some s => s ≠ ""

/-- Model of the JavaScript `Set` constructor applied to an array of strings:
insertion ordered, keeping the first occurrence of each element. -/
def jsNewSet (l : List String) : List String :=
  l.foldl (fun acc x => if x ∈ acc then acc else acc ++ [x]) []

/-- Model of `concatMessagesArray` from `src/functions/index.js`: trim each message and
join with a single space. -/
def concatMessagesArray (messages : List String) : String :=
  String.intercalate " " (messages.map String.trim)

/-- The `category` parameter name (`CATEGORY_ARGUMENT` / `Parameters.CATEGORY`). -/
def CATEGORY_ARGUMENT : String := "category"

/-- Constant `DEFAULT_LIFESPAN` (5 turns). -/
def DEFAULT_LIFESPAN : Nat := 5

/-- Constant `END_LIFESPAN` (0 turns, closes a context). -/
def END_LIFESPAN : Nat := 0

namespace FACT_TYPE

def HISTORY : String := "history"

def HEADQUARTERS : String := "headquarters"

def CATS : String := "cats"

end FACT_TYPE

/-- The `HISTORY_FACTS` catalog constant (identical text in every version). -/
def HISTORY_FACTS : List String :=
  [ "Google was founded in 1998.",
    "Google was founded by Larry Page and Sergey Brin.",
    "Google went public in 2004.",
    "Google has more than 70 offices in more than 40 countries." ]

/-- The `HQ_FACTS` catalog constant. -/
def HQ_FACTS : List String :=
  [ "Google\x27s headquarters is in Mountain View, California.",
    "Google has over 30 cafeterias in its main campus.",
    "Google has over 10 fitness facilities in its main campus." ]

/-- The `CAT_FACTS` catalog constant. -/
def CAT_FACTS : List String :=
  [ "Cats are animals.",
    "Cats have nine lives.",
    "Cats descend from other cats." ]

/-- The sentence `By the way, I can tell you about cats too.` -/
def ALSO_CATS : String := "By the way, I can tell you about cats too."

/-- The mutable module-level catalog sets.  The code aliases these on first
access of a session and can mutate them through `Set.prototype.delete`. -/
structure Globals where
  historySet : List String
  hqSet : List String
  catSet : List String
deriving DecidableEq

/-- The catalogs as written in the source. -/
def Globals.init : Globals := ⟨HISTORY_FACTS, HQ_FACTS, CAT_FACTS⟩

/-- Per-session storage `app.data`: `undefined` slots are `none`. -/
structure SessionData where
  historyFacts : Option (List String)
  hqFacts : Option (List String)
  catFacts : Option (List String)
deriving DecidableEq

/-- One decoded request: the `category` argument (absent = `none`), the
screen-output surface capability, and the `Math.random ()` draw consumed by
the fact pick of this turn. -/
structure Request where
  category : Option String
  screenOutput : Bool
  q : ℚ
deriving DecidableEq

/-- Turn kind: `ask` keeps the conversation open, `tell` ends it, `silent`
means the handler returned without sending any response. -/
inductive RKind
  | ask
  | tell
  | silent
deriving DecidableEq

/-- One `setContext (name, lifespan, parameters)` call. -/
structure ContextUpdate where
  name : String
  lifespan : Nat
  params : List (String × String)
deriving DecidableEq

/-- The observable outcome of one handler invocation. -/
structure Response where
  kind : RKind
  messages : List String
  suggestions : List String
  contexts : List ContextUpdate
  logs : List String
deriving DecidableEq

/-- Model of `app.data.historyFacts ? new Set(app.data.historyFacts) : HISTORY_FACTS`:
the effective remaining-history collection a handler operates on.  Note that
an empty stored array is truthy in JavaScript, so only an absent slot falls
back to the (aliased!) global catalog set. -/
def effHistory (g : Globals) (d : SessionData) : List String :=
  match d.historyFacts with
  | some l => jsNewSet l
  | none => g.historySet

/-- Model of `app.data.hqFacts ? new Set(app.data.hqFacts) : HQ_FACTS`. -/
def effHQ (g : Globals) (d : SessionData) : List String :=
  match d.hqFacts with
  | some l => jsNewSet l
  | none => g.hqSet

/-- Model of `app.data.catFacts ? new Set(app.data.catFacts) : CAT_FACTS`. -/
def effCats (g : Globals) (d : SessionData) : List String :=
  match d.catFacts with
  | some l => jsNewSet l
  | none => g.catSet

namespace Functions

def FACTS_CONTEXT : String := "choose_fact-followup"

def CAT_CONTEXT : String := "choose_cats-followup"

def NEXT_FACT_DIRECTIVE : String := "Would you like to hear another fact?"

def CONFIRMATION_SUGGESTIONS : List String := ["Sure", "No thanks"]

def MEOW_SRC : String := "https://actions.google.com/sounds/v1/animals/cat_purr_close.ogg"

/-- Model of `getRandomValue` of `src/functions/index.js`: `null` on an empty array,
otherwise the element at index `Math.floor (Math.random () * array.length)`
(the draw `q` models `Math.random ()`). -/
def getRandomValue (q : ℚ) (array : List String) : Option String :=
  if array.length = 0 then none
  else array.get? (Int.floor (q * array.length)).toNat

/-- Model of `getRandomFact` of `src/functions/index.js`: pick a random member of the
set (via `Array.from`, the identity on our ordered-list model) and, when the
result is truthy, delete it from the set. -/
def getRandomFact (q : ℚ) (facts : List String) : Option String × List String :=
  match getRandomValue q facts with
  | some f => if f = "" then (some f, facts) else (some f, facts.erase f)
  | none => (none, facts)

/-- The inline check `!catFacts || catFacts.length` repeated in `tellFact`
and `noFactsLeft`: true when the session has no `catFacts` slot yet
(`undefined` is falsy) or the stored array is non-empty. -/
def catsTruthyCheck (catFacts : Option (List String)) : Bool :=
  match catFacts with
  | none => true
  | some l => l.length ≠ 0

/-- Model of `noFactsLeft` of `src/functions/index.js`: the emitted context update and
the response sentences (before `concatMessagesArray`). -/
def noFactsLeft (d : SessionData) (currentCategory redirectCategory : String) :
    ContextUpdate × List String :=
  ( ⟨FACTS_CONTEXT, DEFAULT_LIFESPAN, [(CATEGORY_ARGUMENT, redirectCategory)]⟩,
    [ "Looks like you\x27ve heard all there is to know about the " ++ currentCategory ++
        " of Google. I could tell you about its " ++ redirectCategory ++ " instead." ] ++
      (if catsTruthyCheck d.catFacts then [ALSO_CATS] else []) ++
      ["So what would you like to hear about?"] )

/-- The depleted-category branch of `tellFact`: base suggestion plus `'Cats'`
under the `catsTruthyCheck`, the `noFactsLeft` text, and its context update. -/
def depletedContentResponse (d : SessionData)
    (currentCategory redirectCategory suggestionLabel : String)
    (screenOutput : Bool) : Response :=
  let nf := noFactsLeft d currentCategory redirectCategory
  if screenOutput then
    ⟨RKind.ask, [concatMessagesArray nf.2],
      (if catsTruthyCheck d.catFacts then [suggestionLabel, "Cats"] else [suggestionLabel]),
      [nf.1], []⟩
  else
    ⟨RKind.ask, [concatMessagesArray nf.2], [], [nf.1], []⟩

/-- The successful-pick branch of `tellFact`: prefix, fact (card body on a
screen surface) and the next-fact directive. -/
def contentFactResponse (prefixMsg fact : String) (screenOutput : Bool) : Response :=
  if screenOutput then
    ⟨RKind.ask, [prefixMsg, fact, NEXT_FACT_DIRECTIVE], CONFIRMATION_SUGGESTIONS, [], []⟩
  else
    ⟨RKind.ask, [concatMessagesArray [prefixMsg, fact, NEXT_FACT_DIRECTIVE]], [], [], []⟩

/-- Text passed to `console.error` in the missing-category branch. -/
def CATEGORY_ERROR_LOG : String :=
  "category parameter was not provided by API.AI tell.fact action"

def HEARD_IT_ALL : String := "Actually it looks like you heard it all. Thanks for listening!"

/-- Model of `tellFact` of `src/functions/index.js`.  Note the aliasing: when a
session slot is absent the handler works directly on the module-level
catalog set, so a successful pick deletes the fact from the global. -/
def tellFact (g : Globals) (d : SessionData) (req : Request) :
    Globals × SessionData × Response :=
  let historyFromData := d.historyFacts.isSome
  let historyFacts := effHistory g d
  let hqFromData := d.hqFacts.isSome
  let hqFacts := effHQ g d
  if historyFacts.length = 0 ∧ hqFacts.length = 0 then
    (g, d, ⟨RKind.tell, [HEARD_IT_ALL], [], [], []⟩)
  else
    match req.category with
    | none => (g, d, ⟨RKind.silent, [], [], [], [CATEGORY_ERROR_LOG]⟩)
    | some fc =>
      if fc = FACT_TYPE.HISTORY then
        let picked := getRandomFact req.q historyFacts
        let g' := if historyFromData then g else { g with historySet := picked.2 }
        match picked.1 with
        | none =>
          (g', d, depletedContentResponse d fc FACT_TYPE.HEADQUARTERS "Headquarters" req.screenOutput)
        | some f =>
          if f = "" then
            (g', d, depletedContentResponse d fc FACT_TYPE.HEADQUARTERS "Headquarters" req.screenOutput)
          else
            ( g', { d with historyFacts := some picked.2 },
              contentFactResponse "Sure, here\x27s a history fact." f req.screenOutput )
      else if fc = FACT_TYPE.HEADQUARTERS then
        let picked := getRandomFact req.q hqFacts
        let g' := if hqFromData then g else { g with hqSet := picked.2 }
        match picked.1 with
        | none =>
          (g', d, depletedContentResponse d fc FACT_TYPE.HISTORY "History" req.screenOutput)
        | some f =>
          if f = "" then
            (g', d, depletedContentResponse d fc FACT_TYPE.HISTORY "History" req.screenOutput)
          else
            ( g', { d with hqFacts := some picked.2 },
              contentFactResponse "Okay, here\x27s a headquarters fact." f req.screenOutput )
      else
        (g, d, ⟨RKind.silent, [], [], [], [CATEGORY_ERROR_LOG]⟩)

def CATS_HEARD_IT_ALL : String :=
  "Looks like you\x27ve heard all there is to know about cats. Would you like to hear about Google?"

/-- The cats-depleted branch of `tellCatFact`: re-open the general facts
context (lifespan 5, no parameters), close the cats context (lifespan 0), and
ask whether the user wants to hear about Google. -/
def catsDepletedResponse (screenOutput : Bool) : Response :=
  if screenOutput then
    ⟨RKind.ask, [CATS_HEARD_IT_ALL], CONFIRMATION_SUGGESTIONS,
      [⟨FACTS_CONTEXT, DEFAULT_LIFESPAN, []⟩, ⟨CAT_CONTEXT, END_LIFESPAN, []⟩], []⟩
  else
    ⟨RKind.ask, [CATS_HEARD_IT_ALL], [],
      [⟨FACTS_CONTEXT, DEFAULT_LIFESPAN, []⟩, ⟨CAT_CONTEXT, END_LIFESPAN, []⟩], []⟩

/-- The successful-pick branch of `tellCatFact` (SSML prefix with the meow
audio clip). -/
def catFactResponse (fact : String) (screenOutput : Bool) : Response :=
  let prefixMsg := "Alright, here\x27s a cat fact. <audio src=\"" ++ MEOW_SRC ++ "\"></audio>"
  if screenOutput then
    ⟨RKind.ask, ["<speak>" ++ prefixMsg ++ "</speak>", fact, NEXT_FACT_DIRECTIVE],
      CONFIRMATION_SUGGESTIONS, [], []⟩
  else
    ⟨RKind.ask,
      ["<speak>" ++ concatMessagesArray [prefixMsg, fact, NEXT_FACT_DIRECTIVE] ++ "</speak>"],
      [], [], []⟩

/-- Model of `tellCatFact` of `src/functions/index.js` (same aliasing caveat as
`tellFact`). -/
def tellCatFact (g : Globals) (d : SessionData) (req : Request) :
    Globals × SessionData × Response :=
  let catsFromData := d.catFacts.isSome
  let catFacts := effCats g d
  let picked := getRandomFact req.q catFacts
  let g' := if catsFromData then g else { g with catSet := picked.2 }
  match picked.1 with
  | none => (g', d, catsDepletedResponse req.screenOutput)
  | some f =>
    if f = "" then (g', d, catsDepletedResponse req.screenOutput)
    else (g', { d with catFacts := some picked.2 }, catFactResponse f req.screenOutput)

/-- The pick-until-depletion loop of the no-repeat property: each turn draws
`q`, calls `getRandomFact` on the remaining facts, and — exactly as the
handlers persist and re-read session state — carries
`new Set(Array.from (...))` (`jsNewSet`) to the next turn; the loop stops
when the pick is falsy.  Returns the told facts and the final remaining
collection. -/
def runPicks : List ℚ → List String → List String × List String
  | [], facts => ([], facts)
  | q :: rest, facts =>
    match getRandomFact q facts with
    | (none, _) => ([], facts)
    | (some f, facts') =>
      if f = "" then ([], facts)
      else
        let next := runPicks rest (jsNewSet facts')
        (f :: next.1, next.2)

end Functions

namespace Legacy

def GOOGLE_CONTEXT : String := "google-facts"

def CAT_CONTEXT : String := "cat-facts"

/-- Legacy next-fact directive (note the leading space: it is concatenated,
not joined). -/
def NEXT_FACT_DIRECTIVE : String := " Would you like to hear another fact?"

def MEOW_SRC : String := "https://actions.google.com/sounds/v1/animals/cat_purr_close.ogg"

/-- Model of `getRandomFact` of `src/index.js`: `null` on an empty set; otherwise the
index is `parseInt ((Math.random () * (facts.size - 1)).toFixed ())` —
`toFixed` rounds to the nearest integer, half away from zero, modelled for
the non-negative argument as `⌊x + 1/2⌋` — the element at that position of
the set's iteration order is found by counting (the `''` initialisation is
kept via `getD`), and deleted from the set. -/
def getRandomFact (q : ℚ) (facts : List String) : Option String × List String :=
  if facts.length ≤ 0 then (none, facts)
  else
    let randomFactIndex := (Int.floor (q * ((facts.length : ℚ) - 1) + 1 / 2)).toNat
    let randomFact := (facts.get? randomFactIndex).getD ""
    (some randomFact, facts.erase randomFact)

/-- Model of `noFactsLeft` of `src/index.js`: context update plus response string (the
template-literal line continuations keep the 8-space indentation inside the
string). -/
def noFactsLeft (d : SessionData) (currentCategory redirectCategory : String) :
    ContextUpdate × String :=
  ( ⟨GOOGLE_CONTEXT, DEFAULT_LIFESPAN, [(CATEGORY_ARGUMENT, redirectCategory)]⟩,
    "Looks like you\x27ve heard all there is to know         about the " ++ currentCategory ++
      " of Google. Would you like to hear         about its " ++ redirectCategory ++ "? " ++
      (match d.catFacts with
       | none => ALSO_CATS
       | some l => if l.length > 0 then ALSO_CATS else "") )

/-- The conversation-repair safeguard reply of `src/index.js` (template
literal with line continuations, hence the embedded indentation). -/
def DIDNT_UNDERSTAND_PROMPT : String :=
  "Sorry, I didn\x27t understand. I can tell you about         Google\x27s history, or its headquarters. Which one do you want to         hear about?"

/-- Model of `tellGoogleFact` of `src/index.js`.  Same first-access aliasing of the
module-level catalog sets as the `Functions` version; unlike it, the
depletion test is a strict `fact === null` comparison, and an unknown or
absent category is answered with a generic clarifying prompt. -/
def tellGoogleFact (g : Globals) (d : SessionData) (req : Request) :
    Globals × SessionData × Response :=
  let historyFromData := d.historyFacts.isSome
  let historyFacts := effHistory g d
  let hqFromData := d.hqFacts.isSome
  let hqFacts := effHQ g d
  if historyFacts.length = 0 ∧ hqFacts.length = 0 then
    (g, d, ⟨RKind.tell, ["Actually it looks like you heard it all. Thanks for listening!"], [], [], []⟩)
  else
    match req.category with
    | none => (g, d, ⟨RKind.ask, [DIDNT_UNDERSTAND_PROMPT], [], [], []⟩)
    | some fc =>
      if fc = FACT_TYPE.HISTORY then
        let picked := getRandomFact req.q historyFacts
        let g' := if historyFromData then g else { g with historySet := picked.2 }
        match picked.1 with
        | none =>
          let nf := noFactsLeft d fc FACT_TYPE.HEADQUARTERS
          (g', d, ⟨RKind.ask, [nf.2], [], [nf.1], []⟩)
        | some f =>
          ( g', { d with historyFacts := some picked.2 },
            ⟨RKind.ask, ["Sure, here\x27s a history fact. " ++ f ++ NEXT_FACT_DIRECTIVE], [], [], []⟩ )
      else if fc = FACT_TYPE.HEADQUARTERS then
        let picked := getRandomFact req.q hqFacts
        let g' := if hqFromData then g else { g with hqSet := picked.2 }
        match picked.1 with
        | none =>
          let nf := noFactsLeft d fc FACT_TYPE.HISTORY
          (g', d, ⟨RKind.ask, [nf.2], [], [nf.1], []⟩)
        | some f =>
          ( g', { d with hqFacts := some picked.2 },
            ⟨RKind.ask, ["Okay, here\x27s a headquarters fact. " ++ f ++ NEXT_FACT_DIRECTIVE], [], [], []⟩ )
      else
        (g, d, ⟨RKind.ask, [DIDNT_UNDERSTAND_PROMPT], [], [], []⟩)

end Legacy

namespace Dialogflow

/-- Model of `getRandomValue` of the DialogflowApp version:
`array[Math.floor(Math.random() * array.length)]`, with no emptiness guard
(out-of-range indexing yields `undefined` = `none`; `Int.toNat` clamps
negative floors, which only differ from JS for draws below 0, outside
`Math.random`'s range). -/
def getRandomValue (q : ℚ) (array : List String) : Option String :=
  array.get? (Int.floor (q * array.length)).toNat

/-- Model of `getRandomFact` of the DialogflowApp version: guard on `facts.length`,
pick `getRandomValue`, then `facts.splice(facts.indexOf(fact), 1)` — which
removes the FIRST occurrence of the picked value (`List.erase`), not the
picked position.  (For a draw outside `[0,1)` the pick is `undefined`,
`indexOf` yields `-1` and `splice(-1, 1)` drops the last element.) -/
def getRandomFact (q : ℚ) (facts : List String) : Option String × List String :=
  if facts.length = 0 then (none, facts)
  else
    match getRandomValue q facts with
    | some fact => (some fact, facts.erase fact)
    | none => (none, facts.dropLast)

end Dialogflow

/-- Process state: the (mutable) module-level catalogs plus every session's
`app.data`. -/
structure World where
  globals : Globals
  sessions : String → SessionData

/-- One incoming request: which action fired. -/
inductive TurnAction
  | fact (req : Request)
  | catFact (req : Request)

/-- Dispatch one request for session `sid` (the `actionMap` of
`src/functions/index.js`), persisting the updated `app.data`. -/
def step (w : World) (sid : String) (a : TurnAction) : World × Response :=
  match a with
  | TurnAction.fact req =>
    let r := Functions.tellFact w.globals (w.sessions sid) req
    (⟨r.1, fun s => if s = sid then r.2.1 else w.sessions s⟩, r.2.2)
  | TurnAction.catFact req =>
    let r := Functions.tellCatFact w.globals (w.sessions sid) req
    (⟨r.1, fun s => if s = sid then r.2.1 else w.sessions s⟩, r.2.2)

/-- Run a trace of requests. -/
def steps : World → List (String × TurnAction) → World
  | w, [] => w
  | w, (sid, a) :: rest => steps (step w sid a).1 rest

/-- The three fact buckets. -/
inductive FCat
  | history
  | headquarters
  | cats
deriving DecidableEq

/-- The effective remaining collection of a (session, category) pair. -/
def effList (w : World) (sid : String) : FCat → List String
  | FCat.history => effHistory w.globals (w.sessions sid)
  | FCat.headquarters => effHQ w.globals (w.sessions sid)
  | FCat.cats => effCats w.globals (w.sessions sid)

/-! ### Helper lemmas -/

theorem floorIndex_lt (q : ℚ) (n : ℕ) (h0 : 0 ≤ q) (h1 : q < 1) (hn : 0 < n) :
    (Int.floor (q * n)).toNat < n := by
  have hq : q * n < n := by
    have := mul_lt_mul_of_pos_right h1 (show (0:ℚ) < n by exact_mod_cast hn)
    simpa using this
  have h2 : Int.floor (q * (n : ℚ)) < (n : ℤ) := by
    rw [Int.floor_lt]
    exact_mod_cast hq
  have h3 : (0 : ℤ) ≤ Int.floor (q * (n : ℚ)) :=
    Int.floor_nonneg.mpr (by positivity)
  omega

theorem floorIndex_zero (n : ℕ) : (Int.floor ((0 : ℚ) * n)).toNat = 0 := by simp

theorem functions_getRandomValue_eq_get (q : ℚ) (facts : List String)
    (h0 : 0 ≤ q) (h1 : q < 1) (hne : facts ≠ []) :
    ∃ h : (Int.floor (q * facts.length)).toNat < facts.length,
      Functions.getRandomValue q facts = some (facts.get ⟨(Int.floor (q * facts.length)).toNat, h⟩) := by
  have hn : 0 < facts.length := List.length_pos.mpr hne
  refine ⟨floorIndex_lt q facts.length h0 h1 hn, ?_⟩
  unfold Functions.getRandomValue
  rw [if_neg (by omega)]
  exact List.get?_eq_get _

theorem functions_getRandomFact_succ (q : ℚ) (facts : List String)
    (h0 : 0 ≤ q) (h1 : q < 1) (hne : facts ≠ []) (hns : "" ∉ facts) :
    ∃ f, f ∈ facts ∧ f ≠ "" ∧
      Functions.getRandomFact q facts = (some f, facts.erase f) := by
  obtain ⟨h, hv⟩ := functions_getRandomValue_eq_get q facts h0 h1 hne
  refine ⟨facts.get ⟨_, h⟩, facts.get_mem _ _, ?_, ?_⟩
  · intro hc
    exact hns (hc ▸ facts.get_mem _ h)
  · have hfne : facts.get ⟨(Int.floor (q * facts.length)).toNat, h⟩ ≠ "" := by
      intro hc
      exact hns (hc ▸ facts.get_mem _ h)
    unfold Functions.getRandomFact
    rw [hv]
    simp only [List.get_eq_getElem] at hfne
    simp [hfne]

theorem functions_getRandomFact_empty (q : ℚ) :
    Functions.getRandomFact q [] = (none, []) := by
  unfold Functions.getRandomFact Functions.getRandomValue
  simp

theorem functions_getRandomFact_zero (f : String) (rest : List String) :
    Functions.getRandomFact 0 (f :: rest) =
      (some f, if f = "" then f :: rest else (f :: rest).erase f) := by
  unfold Functions.getRandomFact Functions.getRandomValue
  have hidx : (Int.floor ((0 : ℚ) * (f :: rest).length)).toNat = 0 := floorIndex_zero _
  rw [if_neg (by simp)]
  rw [hidx]
  by_cases hf : f = "" <;> simp [hf]

theorem jsNewSet_aux (l : List String) : ∀ acc : List String,
    l.Nodup → (∀ x ∈ l, x ∉ acc) →
    l.foldl (fun acc x => if x ∈ acc then acc else acc ++ [x]) acc = acc ++ l := by
  induction l with
  | nil => intro acc _ _; simp
  | cons x xs ih =>
    intro acc hnd hdisj
    simp only [List.foldl_cons]
    rw [if_neg (hdisj x (List.mem_cons_self x xs))]
    rw [ih (acc ++ [x]) (List.Nodup.of_cons hnd) ?_]
    · simp
    · intro y hy hmem
      rcases List.mem_append.mp hmem with h | h
      · exact hdisj y (List.mem_cons_of_mem _ hy) h
      · have hyx : y = x := by simpa using h
        exact (List.nodup_cons.mp hnd).1 (hyx ▸ hy)

theorem jsNewSet_of_nodup (l : List String) (h : l.Nodup) : jsNewSet l = l := by
  unfold jsNewSet
  simpa using jsNewSet_aux l [] h (by simp)

theorem jsNewSet_nil : jsNewSet [] = [] := rfl

theorem runPicks_perm (qs : List ℚ) : ∀ facts : List String,
    (∀ q ∈ qs, 0 ≤ q ∧ q < 1) → facts.Nodup → "" ∉ facts →
    facts.length ≤ qs.length →
    (Functions.runPicks qs facts).1.Perm facts := by
  induction qs with
  | nil =>
    intro facts _ _ _ hlen
    have hfe : facts = [] := List.length_eq_zero.mp (Nat.le_zero.mp hlen)
    subst hfe
    simp [Functions.runPicks]
  | cons q rest ih =>
    intro facts hq hnd hns hlen
    by_cases hfe : facts = []
    · subst hfe
      simp [Functions.runPicks, functions_getRandomFact_empty]
    · obtain ⟨f, hf_mem, hf_ne, heq⟩ :=
        functions_getRandomFact_succ q facts (hq q (by simp)).1 (hq q (by simp)).2 hfe hns
      have hnd' : (facts.erase f).Nodup := hnd.erase f
      have hrw : Functions.runPicks (q :: rest) facts =
          (f :: (Functions.runPicks rest (jsNewSet (facts.erase f))).1,
           (Functions.runPicks rest (jsNewSet (facts.erase f))).2) := by
        rw [Functions.runPicks, heq]
        simp [hf_ne]
      rw [hrw, jsNewSet_of_nodup _ hnd']
      have hlen' : (facts.erase f).length ≤ rest.length := by
        rw [List.length_erase_of_mem hf_mem]
        have : 0 < facts.length := List.length_pos.mpr hfe
        simp only [List.length_cons] at hlen
        omega
      have ih' := ih (facts.erase f) (fun q' hq' => hq q' (List.mem_cons_of_mem _ hq')) hnd'
        (fun hc => hns (facts.erase_subset f hc)) hlen'
      exact (ih'.cons f).trans (List.perm_cons_erase hf_mem).symm

/-- Claim C1: starting from a fresh session state for a category and
repeatedly calling the fact-picking operation (`getRandomFact` on the
remaining facts, carrying the updated remaining list across turns exactly as
`tellFact` / `tellCatFact` persist it) until it signals depletion, the
sequence of returned facts is a permutation of that category's catalog and
contains no duplicates — each catalog fact is told exactly once. -/
theorem claim_C1_no_repeat (qs : List ℚ) (cat : List String)
    (hq : ∀ q ∈ qs, 0 ≤ q ∧ q < 1)
    (hcat : cat = HISTORY_FACTS ∨ cat = HQ_FACTS ∨ cat = CAT_FACTS)
    (hlen : cat.length ≤ qs.length) :
    (Functions.runPicks qs cat).1.Perm cat ∧ (Functions.runPicks qs cat).1.Nodup := by
  have hnd : cat.Nodup := by rcases hcat with h | h | h <;> subst h <;> decide
  have hns : "" ∉ cat := by rcases hcat with h | h | h <;> subst h <;> decide
  have hperm := runPicks_perm qs cat hq hnd hns hlen
  exact ⟨hperm, hperm.nodup_iff.mpr hnd⟩

/-- Witness for C1: four in-range draws on the four-fact history catalog. -/
theorem claim_C1_no_repeat_witness :
    (Functions.runPicks [0, 0, 0, 0] HISTORY_FACTS).1.Perm HISTORY_FACTS ∧
    (Functions.runPicks [0, 0, 0, 0] HISTORY_FACTS).1.Nodup :=
  claim_C1_no_repeat [0, 0, 0, 0] HISTORY_FACTS (by simp) (Or.inl rfl) (by decide)

/-- Claim C10: with every catalog fact a non-empty string, `getRandomFact` is
total and returns `null` exactly on an empty collection; on a non-empty
collection it returns a member (never `undefined`, never the empty string),
so the falsiness guard `if (!fact)` fires exactly when the remaining list is
empty. -/
theorem claim_C10_pick_totality (q : ℚ) (facts : List String)
    (h0 : 0 ≤ q) (h1 : q < 1) (hns : ∀ f ∈ facts, f ≠ "") :
    ((Functions.getRandomFact q facts).1 = none ↔ facts = []) ∧
    (facts ≠ [] → ∃ f, (Functions.getRandomFact q facts).1 = some f ∧ f ∈ facts ∧ f ≠ "") ∧
    (jsTruthy (Functions.getRandomFact q facts).1 = false ↔ facts = []) := by
  by_cases hfe : facts = []
  · subst hfe
    simp [functions_getRandomFact_empty, jsTruthy]
  · have hns' : "" ∉ facts := fun hc => (hns "" hc) rfl
    obtain ⟨f, hm, hne, heq⟩ := functions_getRandomFact_succ q facts h0 h1 hfe hns'
    rw [heq]
    exact ⟨by simp [hfe], fun _ => ⟨f, rfl, hm, hne⟩, by simp [jsTruthy, hne, hfe]⟩

/-- Witness for C10, at draw 0 on the cats catalog. -/
theorem claim_C10_pick_totality_witness :
    ((Functions.getRandomFact 0 CAT_FACTS).1 = none ↔ CAT_FACTS = []) ∧
    (CAT_FACTS ≠ [] →
      ∃ f, (Functions.getRandomFact 0 CAT_FACTS).1 = some f ∧ f ∈ CAT_FACTS ∧ f ≠ "") ∧
    (jsTruthy (Functions.getRandomFact 0 CAT_FACTS).1 = false ↔ CAT_FACTS = []) :=
  claim_C10_pick_totality 0 CAT_FACTS (by simp) (by simp) (by decide)

/-- Counterexample for C4: the DialogflowApp `getRandomFact` on the
collection `["a", "b", "a"]` with a draw selecting index 2 returns the
element at index 2 but removes the FIRST occurrence of that value
(`splice(indexOf(fact), 1)`): the result `["b", "a"]` still contains the
returned value and differs from removing exactly the chosen occurrence
(`["a", "b"]`). -/
theorem claim_C4_counterexample :
    (Int.floor ((3 / 4 : ℚ) * ((["a", "b", "a"] : List String).length : ℚ))).toNat = 2 ∧
    Dialogflow.getRandomFact (3 / 4) ["a", "b", "a"] = (some "a", ["b", "a"]) ∧
    ("a" : String) ∈ ["b", "a"] ∧
    ["b", "a"] ≠ (["a", "b", "a"] : List String).eraseIdx 2 := by
  have hidx : (Int.floor ((3 / 4 : ℚ) * ((["a", "b", "a"] : List String).length : ℚ))).toNat = 2 := by
    have h9 : Int.floor ((3 / 4 : ℚ) * ((["a", "b", "a"] : List String).length : ℚ)) = 2 := by
      norm_num
    rw [h9]
    decide
  refine ⟨hidx, ?_, by decide, by decide⟩
  unfold Dialogflow.getRandomFact Dialogflow.getRandomValue
  rw [if_neg (by decide), hidx]
  decide

/-- Claim C4 (amended): for a duplicate-free remaining collection — which
every collection reachable from the catalogs is — the pick operation returns
the depletion signal iff the collection is empty, and otherwise returns the
element at the drawn index `⌊q·|R|⌋` and removes exactly that occurrence,
leaving `|R| - 1` elements that no longer contain the returned fact.  (On
collections WITH duplicates the array version removes the first occurrence
of the value instead of the chosen one — see the counterexample; the legacy
`src/index.js` variant additionally derives its index by rounding rather
than ⌊·⌋, which stays in range but is not uniform.) -/
theorem claim_C4_amended (q : ℚ) (facts : List String)
    (h0 : 0 ≤ q) (h1 : q < 1) (hnd : facts.Nodup) :
    (facts = [] → Dialogflow.getRandomFact q facts = (none, facts)) ∧
    (facts ≠ [] →
      ∃ hi : (Int.floor (q * facts.length)).toNat < facts.length,
        Dialogflow.getRandomFact q facts =
          (some (facts.get ⟨(Int.floor (q * facts.length)).toNat, hi⟩),
           facts.eraseIdx (Int.floor (q * facts.length)).toNat) ∧
        (facts.eraseIdx (Int.floor (q * facts.length)).toNat).length = facts.length - 1 ∧
        facts.get ⟨(Int.floor (q * facts.length)).toNat, hi⟩ ∉
          facts.eraseIdx (Int.floor (q * facts.length)).toNat) := by
  constructor
  · intro hfe
    subst hfe
    simp [Dialogflow.getRandomFact]
  · intro hfe
    have hn : 0 < facts.length := List.length_pos.mpr hfe
    have hi := floorIndex_lt q facts.length h0 h1 hn
    refine ⟨hi, ?_, ?_, ?_⟩
    · unfold Dialogflow.getRandomFact Dialogflow.getRandomValue
      rw [if_neg (by omega), List.get?_eq_get hi]
      simp [hnd.erase_getElem _ hi]
    · simp [List.length_eraseIdx, hi]
    · rw [← hnd.erase_getElem _ hi]
      simp [List.Nodup.mem_erase_iff hnd]

/-- Witness for the amended C4: draw 0 on the cats catalog. -/
theorem claim_C4_amended_witness :
    (CAT_FACTS = [] → Dialogflow.getRandomFact 0 CAT_FACTS = (none, CAT_FACTS)) ∧
    (CAT_FACTS ≠ [] →
      ∃ hi : (Int.floor ((0 : ℚ) * CAT_FACTS.length)).toNat < CAT_FACTS.length,
        Dialogflow.getRandomFact 0 CAT_FACTS =
          (some (CAT_FACTS.get ⟨(Int.floor ((0 : ℚ) * CAT_FACTS.length)).toNat, hi⟩),
           CAT_FACTS.eraseIdx (Int.floor ((0 : ℚ) * CAT_FACTS.length)).toNat) ∧
        (CAT_FACTS.eraseIdx (Int.floor ((0 : ℚ) * CAT_FACTS.length)).toNat).length =
          CAT_FACTS.length - 1 ∧
        CAT_FACTS.get ⟨(Int.floor ((0 : ℚ) * CAT_FACTS.length)).toNat, hi⟩ ∉
          CAT_FACTS.eraseIdx (Int.floor ((0 : ℚ) * CAT_FACTS.length)).toNat) :=
  claim_C4_amended 0 CAT_FACTS (by simp) (by simp) (by decide)

theorem length_ne_zero_of_ne_nil {l : List String} (h : l ≠ []) : l.length ≠ 0 := by
  simpa using fun hc => h (List.length_eq_zero.mp hc)

theorem tellFact_bothDepleted (g : Globals) (d : SessionData) (req : Request)
    (hh : effHistory g d = []) (hq : effHQ g d = []) :
    Functions.tellFact g d req =
      (g, d, ⟨RKind.tell, [Functions.HEARD_IT_ALL], [], [], []⟩) := by
  unfold Functions.tellFact
  rw [hh, hq]
  simp

theorem tellFact_historyDepleted (g : Globals) (d : SessionData) (req : Request)
    (hdep : effHistory g d = []) (hne : effHQ g d ≠ [])
    (hcat : req.category = some FACT_TYPE.HISTORY) :
    Functions.tellFact g d req =
      (if d.historyFacts.isSome then g else { g with historySet := [] }, d,
       Functions.depletedContentResponse d FACT_TYPE.HISTORY FACT_TYPE.HEADQUARTERS
         "Headquarters" req.screenOutput) := by
  unfold Functions.tellFact
  rw [hdep, hcat]
  rw [if_neg (by simp [length_ne_zero_of_ne_nil hne])]
  simp [functions_getRandomFact_empty]

theorem tellFact_hqDepleted (g : Globals) (d : SessionData) (req : Request)
    (hdep : effHQ g d = []) (hne : effHistory g d ≠ [])
    (hcat : req.category = some FACT_TYPE.HEADQUARTERS) :
    Functions.tellFact g d req =
      (if d.hqFacts.isSome then g else { g with hqSet := [] }, d,
       Functions.depletedContentResponse d FACT_TYPE.HEADQUARTERS FACT_TYPE.HISTORY
         "History" req.screenOutput) := by
  unfold Functions.tellFact
  rw [hdep, hcat]
  rw [if_neg (by simp [length_ne_zero_of_ne_nil hne])]
  simp [functions_getRandomFact_empty,
    show FACT_TYPE.HEADQUARTERS ≠ FACT_TYPE.HISTORY from by decide]

theorem tellFact_historySucc (g : Globals) (d : SessionData) (req : Request)
    (f : String) (rest : List String)
    (hpick : Functions.getRandomFact req.q (effHistory g d) = (some f, rest))
    (hf : f ≠ "")
    (hne : ¬(effHistory g d = [] ∧ effHQ g d = []))
    (hcat : req.category = some FACT_TYPE.HISTORY) :
    Functions.tellFact g d req =
      (if d.historyFacts.isSome then g else { g with historySet := rest },
       { d with historyFacts := some rest },
       Functions.contentFactResponse "Sure, here\x27s a history fact." f req.screenOutput) := by
  unfold Functions.tellFact
  rw [hcat]
  rw [if_neg (by simpa [List.length_eq_zero] using hne)]
  simp [hpick, hf]

theorem tellFact_hqSucc (g : Globals) (d : SessionData) (req : Request)
    (f : String) (rest : List String)
    (hpick : Functions.getRandomFact req.q (effHQ g d) = (some f, rest))
    (hf : f ≠ "")
    (hne : ¬(effHistory g d = [] ∧ effHQ g d = []))
    (hcat : req.category = some FACT_TYPE.HEADQUARTERS) :
    Functions.tellFact g d req =
      (if d.hqFacts.isSome then g else { g with hqSet := rest },
       { d with hqFacts := some rest },
       Functions.contentFactResponse "Okay, here\x27s a headquarters fact." f req.screenOutput) := by
  unfold Functions.tellFact
  rw [hcat]
  rw [if_neg (by simpa [List.length_eq_zero] using hne)]
  simp [hpick, hf, show FACT_TYPE.HEADQUARTERS ≠ FACT_TYPE.HISTORY from by decide]

theorem tellFact_noCategory (g : Globals) (d : SessionData) (req : Request)
    (hne : ¬(effHistory g d = [] ∧ effHQ g d = []))
    (hcat : req.category = none) :
    Functions.tellFact g d req =
      (g, d, ⟨RKind.silent, [], [], [], [Functions.CATEGORY_ERROR_LOG]⟩) := by
  unfold Functions.tellFact
  rw [hcat]
  rw [if_neg (by simpa [List.length_eq_zero] using hne)]

theorem tellFact_badCategory (g : Globals) (d : SessionData) (req : Request) (fc : String)
    (hne : ¬(effHistory g d = [] ∧ effHQ g d = []))
    (hcat : req.category = some fc)
    (hfc1 : fc ≠ FACT_TYPE.HISTORY) (hfc2 : fc ≠ FACT_TYPE.HEADQUARTERS) :
    Functions.tellFact g d req =
      (g, d, ⟨RKind.silent, [], [], [], [Functions.CATEGORY_ERROR_LOG]⟩) := by
  unfold Functions.tellFact
  rw [hcat]
  rw [if_neg (by simpa [List.length_eq_zero] using hne)]
  simp [hfc1, hfc2]

theorem tellCatFact_depleted (g : Globals) (d : SessionData) (req : Request)
    (hdep : effCats g d = []) :
    Functions.tellCatFact g d req =
      (if d.catFacts.isSome then g else { g with catSet := [] }, d,
       Functions.catsDepletedResponse req.screenOutput) := by
  unfold Functions.tellCatFact
  rw [hdep]
  simp [functions_getRandomFact_empty]

theorem tellCatFact_succ (g : Globals) (d : SessionData) (req : Request)
    (f : String) (rest : List String)
    (hpick : Functions.getRandomFact req.q (effCats g d) = (some f, rest))
    (hf : f ≠ "") :
    Functions.tellCatFact g d req =
      (if d.catFacts.isSome then g else { g with catSet := rest },
       { d with catFacts := some rest },
       Functions.catFactResponse f req.screenOutput) := by
  unfold Functions.tellCatFact
  simp [hpick, hf]

theorem tellCatFact_emptyPick (g : Globals) (d : SessionData) (req : Request)
    (rest : List String)
    (hpick : Functions.getRandomFact req.q (effCats g d) = (some "", rest)) :
    Functions.tellCatFact g d req =
      (if d.catFacts.isSome then g else { g with catSet := rest }, d,
       Functions.catsDepletedResponse req.screenOutput) := by
  unfold Functions.tellCatFact
  simp [hpick]

/-- Claim C3: with history depleted and headquarters non-empty a `history`
tell-fact request redirects (continuing turn) with a context targeting
`headquarters`; symmetrically with the categories swapped; and with both
content lists empty the handler answers the terminal heard-it-all `tell`
with no context update. -/
theorem claim_C3_redirect_correctness (g : Globals) (d : SessionData) (req : Request) :
    (effHistory g d = [] → effHQ g d ≠ [] → req.category = some FACT_TYPE.HISTORY →
      (Functions.tellFact g d req).2.2.kind = RKind.ask ∧
      (Functions.tellFact g d req).2.2.contexts =
        [⟨"choose_fact-followup", 5, [("category", "headquarters")]⟩]) ∧
    (effHQ g d = [] → effHistory g d ≠ [] → req.category = some FACT_TYPE.HEADQUARTERS →
      (Functions.tellFact g d req).2.2.kind = RKind.ask ∧
      (Functions.tellFact g d req).2.2.contexts =
        [⟨"choose_fact-followup", 5, [("category", "history")]⟩]) ∧
    (effHistory g d = [] → effHQ g d = [] →
      (Functions.tellFact g d req).2.2.kind = RKind.tell ∧
      (Functions.tellFact g d req).2.2.messages =
        ["Actually it looks like you heard it all. Thanks for listening!"] ∧
      (Functions.tellFact g d req).2.2.contexts = []) := by
  refine ⟨fun hdep hne hcat => ?_, fun hdep hne hcat => ?_, fun hh hq => ?_⟩
  · rw [tellFact_historyDepleted g d req hdep hne hcat]
    by_cases hs : req.screenOutput <;>
      simp [Functions.depletedContentResponse, Functions.noFactsLeft, hs,
        Functions.FACTS_CONTEXT, DEFAULT_LIFESPAN, CATEGORY_ARGUMENT, FACT_TYPE.HEADQUARTERS]
  · rw [tellFact_hqDepleted g d req hdep hne hcat]
    by_cases hs : req.screenOutput <;>
      simp [Functions.depletedContentResponse, Functions.noFactsLeft, hs,
        Functions.FACTS_CONTEXT, DEFAULT_LIFESPAN, CATEGORY_ARGUMENT, FACT_TYPE.HISTORY]
  · rw [tellFact_bothDepleted g d req hh hq]
    exact ⟨rfl, rfl, rfl⟩

/-- Witness for C3: a session that stored an empty history list, with the
headquarters catalog untouched. -/
theorem claim_C3_redirect_correctness_witness :
    (Functions.tellFact Globals.init ⟨some [], none, none⟩
        ⟨some "history", false, 0⟩).2.2.kind = RKind.ask ∧
    (Functions.tellFact Globals.init ⟨some [], none, none⟩
        ⟨some "history", false, 0⟩).2.2.contexts =
      [⟨"choose_fact-followup", 5, [("category", "headquarters")]⟩] :=
  (claim_C3_redirect_correctness Globals.init ⟨some [], none, none⟩
      ⟨some "history", false, 0⟩).1 (by decide) (by decide) rfl

/-- Claim C7: whenever a content category is depleted and the handler
redirects, `noFactsLeft` emits exactly one context update — the facts
follow-up context, mapping the `category` parameter to the fallback
category, with lifespan 5. -/
theorem claim_C7_redirect_context (g : Globals) (d : SessionData) (req : Request)
    (fc other : String)
    (hpair : (fc = FACT_TYPE.HISTORY ∧ other = FACT_TYPE.HEADQUARTERS ∧
                effHistory g d = [] ∧ effHQ g d ≠ []) ∨
             (fc = FACT_TYPE.HEADQUARTERS ∧ other = FACT_TYPE.HISTORY ∧
                effHQ g d = [] ∧ effHistory g d ≠ []))
    (hcat : req.category = some fc) :
    (Functions.tellFact g d req).2.2.contexts =
      [⟨"choose_fact-followup", 5, [("category", other)]⟩] := by
  rcases hpair with ⟨h1, h2, hdep, hne⟩ | ⟨h1, h2, hdep, hne⟩ <;> subst h1 <;> subst h2
  · rw [tellFact_historyDepleted g d req hdep hne hcat]
    by_cases hs : req.screenOutput <;>
      simp [Functions.depletedContentResponse, Functions.noFactsLeft, hs,
        Functions.FACTS_CONTEXT, DEFAULT_LIFESPAN, CATEGORY_ARGUMENT, FACT_TYPE.HEADQUARTERS]
  · rw [tellFact_hqDepleted g d req hdep hne hcat]
    by_cases hs : req.screenOutput <;>
      simp [Functions.depletedContentResponse, Functions.noFactsLeft, hs,
        Functions.FACTS_CONTEXT, DEFAULT_LIFESPAN, CATEGORY_ARGUMENT, FACT_TYPE.HISTORY]

/-- Witness for C7: headquarters depleted in-session, history untouched. -/
theorem claim_C7_redirect_context_witness :
    (Functions.tellFact Globals.init ⟨none, some [], none⟩
        ⟨some "headquarters", true, 0⟩).2.2.contexts =
      [⟨"choose_fact-followup", 5, [("category", "history")]⟩] :=
  claim_C7_redirect_context Globals.init ⟨none, some [], none⟩
    ⟨some "headquarters", true, 0⟩ "headquarters" "history"
    (Or.inr ⟨rfl, rfl, by decide, by decide⟩) rfl

/-- Claim C8: when the session's cats list is empty, `tellCatFact` emits
exactly two context updates — the general facts follow-up context with
lifespan 5 and empty parameters, and the cats follow-up context with
lifespan 0 (closing it) — and asks a continuing (non-terminal) question
about the main content; no emitted update re-opens the cats context. -/
theorem claim_C8_cats_exhausted (g : Globals) (d : SessionData) (req : Request)
    (hdep : effCats g d = []) :
    (Functions.tellCatFact g d req).2.2.contexts =
      [⟨"choose_fact-followup", 5, []⟩, ⟨"choose_cats-followup", 0, []⟩] ∧
    (Functions.tellCatFact g d req).2.2.kind = RKind.ask ∧
    (Functions.tellCatFact g d req).2.2.messages = [Functions.CATS_HEARD_IT_ALL] ∧
    (∀ cu ∈ (Functions.tellCatFact g d req).2.2.contexts,
      cu.name = "choose_cats-followup" → cu.lifespan = 0) := by
  rw [tellCatFact_depleted g d req hdep]
  have hresp : ∀ b : Bool, (Functions.catsDepletedResponse b).contexts =
      [⟨"choose_fact-followup", 5, []⟩, ⟨"choose_cats-followup", 0, []⟩] ∧
      (Functions.catsDepletedResponse b).kind = RKind.ask ∧
      (Functions.catsDepletedResponse b).messages = [Functions.CATS_HEARD_IT_ALL] := by
    intro b
    cases b <;> exact ⟨rfl, rfl, rfl⟩
  obtain ⟨hc, hk, hm⟩ := hresp req.screenOutput
  refine ⟨hc, hk, hm, ?_⟩
  intro cu hcu hname
  rw [hc] at hcu
  simp only [List.mem_cons, List.not_mem_nil, or_false] at hcu
  rcases hcu with rfl | rfl
  · exact absurd hname (by decide)
  · rfl

/-- Witness for C8: a session whose stored cats list is empty. -/
theorem claim_C8_cats_exhausted_witness :
    (Functions.tellCatFact Globals.init ⟨none, none, some []⟩ ⟨none, false, 0⟩).2.2.contexts =
      [⟨"choose_fact-followup", 5, []⟩, ⟨"choose_cats-followup", 0, []⟩] ∧
    (Functions.tellCatFact Globals.init ⟨none, none, some []⟩ ⟨none, false, 0⟩).2.2.kind =
      RKind.ask ∧
    (Functions.tellCatFact Globals.init ⟨none, none, some []⟩ ⟨none, false, 0⟩).2.2.messages =
      [Functions.CATS_HEARD_IT_ALL] ∧
    (∀ cu ∈ (Functions.tellCatFact Globals.init ⟨none, none, some []⟩
        ⟨none, false, 0⟩).2.2.contexts,
      cu.name = "choose_cats-followup" → cu.lifespan = 0) :=
  claim_C8_cats_exhausted Globals.init ⟨none, none, some []⟩ ⟨none, false, 0⟩ (by decide)

/-- Claim C6: in a content-category redirect (`noFactsLeft`), the response
mentions cats iff the session's cats bucket has never been initialized or
still has at least one remaining fact. -/
theorem claim_C6_cats_suggestion (d : SessionData) (cur red : String)
    (hcr : (cur = FACT_TYPE.HISTORY ∧ red = FACT_TYPE.HEADQUARTERS) ∨
           (cur = FACT_TYPE.HEADQUARTERS ∧ red = FACT_TYPE.HISTORY)) :
    ALSO_CATS ∈ (Functions.noFactsLeft d cur red).2 ↔
      (d.catFacts = none ∨ ∃ l, d.catFacts = some l ∧ 0 < l.length) := by
  rcases hcr with ⟨h1, h2⟩ | ⟨h1, h2⟩ <;> subst h1 <;> subst h2 <;>
  · unfold Functions.noFactsLeft Functions.catsTruthyCheck
    cases hd : d.catFacts with
    | none => simp
    | some l =>
      by_cases hl : l.length = 0
      · simp only [hl]
        simp [hl]
        decide
      · simp [hl, Nat.pos_of_ne_zero hl]

/-- Witness for C6: a fresh session (cats untouched) in a history →
headquarters redirect. -/
theorem claim_C6_cats_suggestion_witness :
    ALSO_CATS ∈ (Functions.noFactsLeft ⟨none, none, none⟩ "history" "headquarters").2 ↔
      ((⟨none, none, none⟩ : SessionData).catFacts = none ∨
        ∃ l, (⟨none, none, none⟩ : SessionData).catFacts = some l ∧ 0 < l.length) :=
  claim_C6_cats_suggestion ⟨none, none, none⟩ "history" "headquarters" (Or.inl ⟨rfl, rfl⟩)

/-- Counterexample for C2: on a completely fresh session, one successful
`history` pick mutates the module-level `HISTORY_FACTS` catalog itself
(first access aliases the global set instead of copying it), leaving the
global catalog with only three facts. -/
theorem claim_C2_counterexample :
    (Functions.tellFact Globals.init ⟨none, none, none⟩
        ⟨some "history", false, 0⟩).1.historySet ≠ HISTORY_FACTS ∧
    (Functions.tellFact Globals.init ⟨none, none, none⟩
        ⟨some "history", false, 0⟩).1.historySet =
      HISTORY_FACTS.erase "Google was founded in 1998." ∧
    Globals.init.historySet = HISTORY_FACTS := by
  have hpick : Functions.getRandomFact 0 (effHistory Globals.init ⟨none, none, none⟩) =
      (some "Google was founded in 1998.",
       HISTORY_FACTS.erase "Google was founded in 1998.") := by
    have h := functions_getRandomFact_zero "Google was founded in 1998."
      [ "Google was founded by Larry Page and Sergey Brin.",
        "Google went public in 2004.",
        "Google has more than 70 offices in more than 40 countries." ]
    simpa [HISTORY_FACTS, effHistory, Globals.init] using h
  rw [tellFact_historySucc Globals.init ⟨none, none, none⟩ ⟨some "history", false, 0⟩
    "Google was founded in 1998." (HISTORY_FACTS.erase "Google was founded in 1998.")
    hpick (by decide) (by decide) rfl]
  refine ⟨by decide, rfl, rfl⟩

/-- Claim C2 (amended): the DialogflowApp version initializes a session's
remaining list from a copy (`slice`) and never mutates the catalog, but in
`src/functions/index.js` and `src/index.js` a session whose slot is still
absent aliases the module-level catalog set, and a successful pick deletes
the fact from the global itself (see the counterexample).  What does hold of
this code: once every slot of the session's data is initialized, no handler
invocation mutates the catalog constants. -/
theorem claim_C2_amended (g : Globals) (d : SessionData) (req : Request)
    (hh : d.historyFacts.isSome) (hq : d.hqFacts.isSome) (hc : d.catFacts.isSome) :
    (Functions.tellFact g d req).1 = g ∧ (Functions.tellCatFact g d req).1 = g := by
  constructor
  · unfold Functions.tellFact
    simp only [hh, hq, if_true]
    repeat' split <;> try rfl
  · unfold Functions.tellCatFact
    simp only [hc, if_true]
    repeat' split <;> try rfl

/-- Witness for the amended C2: all three slots initialized to full copies. -/
theorem claim_C2_amended_witness :
    (Functions.tellFact Globals.init
        ⟨some HISTORY_FACTS, some HQ_FACTS, some CAT_FACTS⟩
        ⟨some "history", false, 0⟩).1 = Globals.init ∧
    (Functions.tellCatFact Globals.init
        ⟨some HISTORY_FACTS, some HQ_FACTS, some CAT_FACTS⟩
        ⟨some "history", false, 0⟩).1 = Globals.init :=
  claim_C2_amended Globals.init ⟨some HISTORY_FACTS, some HQ_FACTS, some CAT_FACTS⟩
    ⟨some "history", false, 0⟩ rfl rfl rfl

theorem tellGoogleFact_noCategory (g : Globals) (d : SessionData) (req : Request)
    (hne : ¬(effHistory g d = [] ∧ effHQ g d = []))
    (hcat : req.category = none) :
    Legacy.tellGoogleFact g d req =
      (g, d, ⟨RKind.ask, [Legacy.DIDNT_UNDERSTAND_PROMPT], [], [], []⟩) := by
  unfold Legacy.tellGoogleFact
  rw [hcat]
  rw [if_neg (by simpa [List.length_eq_zero] using hne)]

theorem tellGoogleFact_badCategory (g : Globals) (d : SessionData) (req : Request)
    (fc : String)
    (hne : ¬(effHistory g d = [] ∧ effHQ g d = []))
    (hcat : req.category = some fc)
    (hfc1 : fc ≠ FACT_TYPE.HISTORY) (hfc2 : fc ≠ FACT_TYPE.HEADQUARTERS) :
    Legacy.tellGoogleFact g d req =
      (g, d, ⟨RKind.ask, [Legacy.DIDNT_UNDERSTAND_PROMPT], [], [], []⟩) := by
  unfold Legacy.tellGoogleFact
  rw [hcat]
  rw [if_neg (by simpa [List.length_eq_zero] using hne)]
  simp [hfc1, hfc2]

/-- Counterexample for C9: in `src/functions/index.js`, a tell-fact request
with no category on a fresh session (facts remaining) only logs the error:
the handler neither `ask`s nor `tell`s — there is no user-facing fallback
prompt at all. -/
theorem claim_C9_counterexample :
    (Functions.tellFact Globals.init ⟨none, none, none⟩ ⟨none, false, 0⟩).2.2 =
      ⟨RKind.silent, [], [], [], [Functions.CATEGORY_ERROR_LOG]⟩ ∧
    effHistory Globals.init ⟨none, none, none⟩ ≠ [] := by
  constructor
  · rw [tellFact_noCategory Globals.init ⟨none, none, none⟩ ⟨none, false, 0⟩ (by decide) rfl]
  · decide

/-- Claim C9 (amended): on an absent or non-catalog category (with content
facts remaining), the `src/functions/index.js` handler logs the error but
produces no user-facing response at all, while the legacy `src/index.js`
handler answers with a generic didn\x27t-understand prompt (and does not
log). -/
theorem claim_C9_amended (g : Globals) (d : SessionData) (req : Request)
    (hne : ¬(effHistory g d = [] ∧ effHQ g d = []))
    (hbad : req.category = none ∨
      ∃ fc, req.category = some fc ∧ fc ≠ FACT_TYPE.HISTORY ∧ fc ≠ FACT_TYPE.HEADQUARTERS) :
    ((Functions.tellFact g d req).2.2.kind = RKind.silent ∧
     (Functions.tellFact g d req).2.2.messages = [] ∧
     (Functions.tellFact g d req).2.2.logs = [Functions.CATEGORY_ERROR_LOG]) ∧
    ((Legacy.tellGoogleFact g d req).2.2.kind = RKind.ask ∧
     (Legacy.tellGoogleFact g d req).2.2.messages = [Legacy.DIDNT_UNDERSTAND_PROMPT] ∧
     (Legacy.tellGoogleFact g d req).2.2.logs = []) := by
  rcases hbad with hcat | ⟨fc, hcat, hfc1, hfc2⟩
  · rw [tellFact_noCategory g d req hne hcat, tellGoogleFact_noCategory g d req hne hcat]
    exact ⟨⟨rfl, rfl, rfl⟩, rfl, rfl, rfl⟩
  · rw [tellFact_badCategory g d req fc hne hcat hfc1 hfc2,
      tellGoogleFact_badCategory g d req fc hne hcat hfc1 hfc2]
    exact ⟨⟨rfl, rfl, rfl⟩, rfl, rfl, rfl⟩

/-- Witness for the amended C9: category `"cats"` sent to the content
handler of a fresh session. -/
theorem claim_C9_amended_witness :
    ((Functions.tellFact Globals.init ⟨none, none, none⟩
        ⟨some "cats", false, 0⟩).2.2.kind = RKind.silent ∧
     (Functions.tellFact Globals.init ⟨none, none, none⟩
        ⟨some "cats", false, 0⟩).2.2.messages = [] ∧
     (Functions.tellFact Globals.init ⟨none, none, none⟩
        ⟨some "cats", false, 0⟩).2.2.logs = [Functions.CATEGORY_ERROR_LOG]) ∧
    ((Legacy.tellGoogleFact Globals.init ⟨none, none, none⟩
        ⟨some "cats", false, 0⟩).2.2.kind = RKind.ask ∧
     (Legacy.tellGoogleFact Globals.init ⟨none, none, none⟩
        ⟨some "cats", false, 0⟩).2.2.messages = [Legacy.DIDNT_UNDERSTAND_PROMPT] ∧
     (Legacy.tellGoogleFact Globals.init ⟨none, none, none⟩
        ⟨some "cats", false, 0⟩).2.2.logs = []) :=
  claim_C9_amended Globals.init ⟨none, none, none⟩ ⟨some "cats", false, 0⟩
    (by decide) (Or.inr ⟨"cats", rfl, by decide, by decide⟩)

theorem tellFact_state (g : Globals) (d : SessionData) (req : Request) :
    ((Functions.tellFact g d req).2.1.catFacts = d.catFacts) ∧
    ((Functions.tellFact g d req).1.catSet = g.catSet) ∧
    ((Functions.tellFact g d req).2.1.historyFacts = d.historyFacts ∨
      (Functions.tellFact g d req).2.1.historyFacts =
        some (Functions.getRandomFact req.q (effHistory g d)).2) ∧
    ((Functions.tellFact g d req).1.historySet = g.historySet ∨
      (d.historyFacts = none ∧
        (Functions.tellFact g d req).1.historySet =
          (Functions.getRandomFact req.q (effHistory g d)).2)) ∧
    ((Functions.tellFact g d req).2.1.hqFacts = d.hqFacts ∨
      (Functions.tellFact g d req).2.1.hqFacts =
        some (Functions.getRandomFact req.q (effHQ g d)).2) ∧
    ((Functions.tellFact g d req).1.hqSet = g.hqSet ∨
      (d.hqFacts = none ∧
        (Functions.tellFact g d req).1.hqSet =
          (Functions.getRandomFact req.q (effHQ g d)).2)) := by
  unfold Functions.tellFact
  dsimp only
  (repeat' split) <;> (first | rfl | simp_all [Option.not_isSome_iff_eq_none])

theorem tellCatFact_state (g : Globals) (d : SessionData) (req : Request) :
    ((Functions.tellCatFact g d req).2.1.historyFacts = d.historyFacts) ∧
    ((Functions.tellCatFact g d req).2.1.hqFacts = d.hqFacts) ∧
    ((Functions.tellCatFact g d req).1.historySet = g.historySet) ∧
    ((Functions.tellCatFact g d req).1.hqSet = g.hqSet) ∧
    ((Functions.tellCatFact g d req).2.1.catFacts = d.catFacts ∨
      (Functions.tellCatFact g d req).2.1.catFacts =
        some (Functions.getRandomFact req.q (effCats g d)).2) ∧
    ((Functions.tellCatFact g d req).1.catSet = g.catSet ∨
      (d.catFacts = none ∧
        (Functions.tellCatFact g d req).1.catSet =
          (Functions.getRandomFact req.q (effCats g d)).2)) := by
  unfold Functions.tellCatFact
  dsimp only
  (repeat' split) <;> (first | rfl | simp_all [Option.not_isSome_iff_eq_none])

theorem tellFact_effHistory_empty (g : Globals) (d : SessionData) (req : Request)
    (h : effHistory g d = []) :
    effHistory (Functions.tellFact g d req).1 (Functions.tellFact g d req).2.1 = [] := by
  obtain ⟨-, -, hslot, hglob, -, -⟩ := tellFact_state g d req
  have hpick : (Functions.getRandomFact req.q (effHistory g d)).2 = [] := by
    rw [h, functions_getRandomFact_empty]
  unfold effHistory at h ⊢
  rcases hslot with hs | hs <;> rw [hs]
  · cases hd : d.historyFacts with
    | some l =>
      rw [hd] at h
      exact h
    | none =>
      rw [hd] at h
      rcases hglob with hg | ⟨-, hg⟩ <;> rw [hg]
      · exact h
      · exact hpick
  · rw [hpick]
    rfl

theorem tellFact_effHQ_empty (g : Globals) (d : SessionData) (req : Request)
    (h : effHQ g d = []) :
    effHQ (Functions.tellFact g d req).1 (Functions.tellFact g d req).2.1 = [] := by
  obtain ⟨-, -, -, -, hslot, hglob⟩ := tellFact_state g d req
  have hpick : (Functions.getRandomFact req.q (effHQ g d)).2 = [] := by
    rw [h, functions_getRandomFact_empty]
  unfold effHQ at h ⊢
  rcases hslot with hs | hs <;> rw [hs]
  · cases hd : d.hqFacts with
    | some l =>
      rw [hd] at h
      exact h
    | none =>
      rw [hd] at h
      rcases hglob with hg | ⟨-, hg⟩ <;> rw [hg]
      · exact h
      · exact hpick
  · rw [hpick]
    rfl

theorem tellFact_effCats_frame (g : Globals) (d : SessionData) (req : Request) :
    effCats (Functions.tellFact g d req).1 (Functions.tellFact g d req).2.1 = effCats g d := by
  obtain ⟨hslot, hglob, -, -, -, -⟩ := tellFact_state g d req
  unfold effCats
  rw [hslot, hglob]

theorem tellFact_historySet_empty (g : Globals) (d : SessionData) (req : Request)
    (h : g.historySet = []) :
    (Functions.tellFact g d req).1.historySet = [] := by
  obtain ⟨-, -, -, hglob, -, -⟩ := tellFact_state g d req
  rcases hglob with hg | ⟨hnone, hg⟩ <;> rw [hg]
  · exact h
  · have he : effHistory g d = [] := by
      unfold effHistory
      rw [hnone]
      exact h
    rw [he, functions_getRandomFact_empty]

theorem tellFact_hqSet_empty (g : Globals) (d : SessionData) (req : Request)
    (h : g.hqSet = []) :
    (Functions.tellFact g d req).1.hqSet = [] := by
  obtain ⟨-, -, -, -, -, hglob⟩ := tellFact_state g d req
  rcases hglob with hg | ⟨hnone, hg⟩ <;> rw [hg]
  · exact h
  · have he : effHQ g d = [] := by
      unfold effHQ
      rw [hnone]
      exact h
    rw [he, functions_getRandomFact_empty]

theorem tellCatFact_effCats_empty (g : Globals) (d : SessionData) (req : Request)
    (h : effCats g d = []) :
    effCats (Functions.tellCatFact g d req).1 (Functions.tellCatFact g d req).2.1 = [] := by
  obtain ⟨-, -, -, -, hslot, hglob⟩ := tellCatFact_state g d req
  have hpick : (Functions.getRandomFact req.q (effCats g d)).2 = [] := by
    rw [h, functions_getRandomFact_empty]
  unfold effCats at h ⊢
  rcases hslot with hs | hs <;> rw [hs]
  · cases hd : d.catFacts with
    | some l =>
      rw [hd] at h
      exact h
    | none =>
      rw [hd] at h
      rcases hglob with hg | ⟨-, hg⟩ <;> rw [hg]
      · exact h
      · exact hpick
  · rw [hpick]
    rfl

theorem tellCatFact_catSet_empty (g : Globals) (d : SessionData) (req : Request)
    (h : g.catSet = []) :
    (Functions.tellCatFact g d req).1.catSet = [] := by
  obtain ⟨-, -, -, -, -, hglob⟩ := tellCatFact_state g d req
  rcases hglob with hg | ⟨hnone, hg⟩ <;> rw [hg]
  · exact h
  · have he : effCats g d = [] := by
      unfold effCats
      rw [hnone]
      exact h
    rw [he, functions_getRandomFact_empty]

theorem tellCatFact_effHistory_frame (g : Globals) (d : SessionData) (req : Request) :
    effHistory (Functions.tellCatFact g d req).1 (Functions.tellCatFact g d req).2.1 =
      effHistory g d := by
  obtain ⟨hslot, -, hglob, -, -, -⟩ := tellCatFact_state g d req
  unfold effHistory
  rw [hslot, hglob]

theorem tellCatFact_effHQ_frame (g : Globals) (d : SessionData) (req : Request) :
    effHQ (Functions.tellCatFact g d req).1 (Functions.tellCatFact g d req).2.1 =
      effHQ g d := by
  obtain ⟨-, hslot, -, hglob, -, -⟩ := tellCatFact_state g d req
  unfold effHQ
  rw [hslot, hglob]

theorem step_fact_world (w : World) (sid' : String) (req : Request) :
    (step w sid' (TurnAction.fact req)).1 =
      ⟨(Functions.tellFact w.globals (w.sessions sid') req).1,
       fun s => if s = sid' then (Functions.tellFact w.globals (w.sessions sid') req).2.1
         else w.sessions s⟩ := rfl

theorem step_catFact_world (w : World) (sid' : String) (req : Request) :
    (step w sid' (TurnAction.catFact req)).1 =
      ⟨(Functions.tellCatFact w.globals (w.sessions sid') req).1,
       fun s => if s = sid' then (Functions.tellCatFact w.globals (w.sessions sid') req).2.1
         else w.sessions s⟩ := rfl

theorem step_preserves_empty (w : World) (sid : String) (c : FCat)
    (h : effList w sid c = []) (sid' : String) (a : TurnAction) :
    effList (step w sid' a).1 sid c = [] := by
  cases a with
  | fact req =>
    rw [step_fact_world]
    by_cases hs : sid = sid'
    · subst hs
      cases c with
      | history =>
        simp only [effList] at h ⊢
        simp only [if_true]
        exact tellFact_effHistory_empty w.globals (w.sessions sid) req h
      | headquarters =>
        simp only [effList] at h ⊢
        simp only [if_true]
        exact tellFact_effHQ_empty w.globals (w.sessions sid) req h
      | cats =>
        simp only [effList] at h ⊢
        simp only [if_true]
        rw [tellFact_effCats_frame]
        exact h
    · cases c with
      | history =>
        simp only [effList] at h ⊢
        rw [if_neg hs]
        cases hd : (w.sessions sid).historyFacts with
        | some l =>
          unfold effHistory at h ⊢
          rw [hd] at h ⊢
          exact h
        | none =>
          unfold effHistory at h ⊢
          rw [hd] at h ⊢
          exact tellFact_historySet_empty w.globals (w.sessions sid') req h
      | headquarters =>
        simp only [effList] at h ⊢
        rw [if_neg hs]
        cases hd : (w.sessions sid).hqFacts with
        | some l =>
          unfold effHQ at h ⊢
          rw [hd] at h ⊢
          exact h
        | none =>
          unfold effHQ at h ⊢
          rw [hd] at h ⊢
          exact tellFact_hqSet_empty w.globals (w.sessions sid') req h
      | cats =>
        simp only [effList] at h ⊢
        rw [if_neg hs]
        cases hd : (w.sessions sid).catFacts with
        | some l =>
          unfold effCats at h ⊢
          rw [hd] at h ⊢
          exact h
        | none =>
          unfold effCats at h ⊢
          rw [hd] at h ⊢
          rw [(tellFact_state w.globals (w.sessions sid') req).2.1]
          exact h
  | catFact req =>
    rw [step_catFact_world]
    by_cases hs : sid = sid'
    · subst hs
      cases c with
      | history =>
        simp only [effList] at h ⊢
        simp only [if_true]
        rw [tellCatFact_effHistory_frame]
        exact h
      | headquarters =>
        simp only [effList] at h ⊢
        simp only [if_true]
        rw [tellCatFact_effHQ_frame]
        exact h
      | cats =>
        simp only [effList] at h ⊢
        simp only [if_true]
        exact tellCatFact_effCats_empty w.globals (w.sessions sid) req h
    · cases c with
      | history =>
        simp only [effList] at h ⊢
        rw [if_neg hs]
        cases hd : (w.sessions sid).historyFacts with
        | some l =>
          unfold effHistory at h ⊢
          rw [hd] at h ⊢
          exact h
        | none =>
          unfold effHistory at h ⊢
          rw [hd] at h ⊢
          rw [(tellCatFact_state w.globals (w.sessions sid') req).2.2.1]
          exact h
      | headquarters =>
        simp only [effList] at h ⊢
        rw [if_neg hs]
        cases hd : (w.sessions sid).hqFacts with
        | some l =>
          unfold effHQ at h ⊢
          rw [hd] at h ⊢
          exact h
        | none =>
          unfold effHQ at h ⊢
          rw [hd] at h ⊢
          rw [(tellCatFact_state w.globals (w.sessions sid') req).2.2.2.1]
          exact h
      | cats =>
        simp only [effList] at h ⊢
        rw [if_neg hs]
        cases hd : (w.sessions sid).catFacts with
        | some l =>
          unfold effCats at h ⊢
          rw [hd] at h ⊢
          exact h
        | none =>
          unfold effCats at h ⊢
          rw [hd] at h ⊢
          exact tellCatFact_catSet_empty w.globals (w.sessions sid') req h

theorem steps_preserves_empty (trace : List (String × TurnAction)) :
    ∀ (w : World) (sid : String) (c : FCat), effList w sid c = [] →
      effList (steps w trace) sid c = [] := by
  induction trace with
  | nil =>
    intro w sid c h
    exact h
  | cons p rest ih =>
    intro w sid c h
    exact ih (step w p.1 p.2).1 sid c (step_preserves_empty w sid c h p.1 p.2)

/-- Claim C5: once the effective remaining collection of a (session,
category) pair is empty — i.e. a pick has signalled depletion — it stays
empty across any further trace of requests, by any sessions, and every
subsequent pick for the pair returns the depletion signal; the emptied list
is never re-initialized from the catalog within the session (a stored empty
array is truthy, so the fallback to the catalog never fires again, and the
aliased global only ever shrinks). -/
theorem claim_C5_depletion_persists (w : World) (sid : String) (c : FCat)
    (h : effList w sid c = []) (trace : List (String × TurnAction)) :
    effList (steps w trace) sid c = [] ∧
    ∀ q : ℚ, (Functions.getRandomFact q (effList (steps w trace) sid c)).1 = none := by
  have hs := steps_preserves_empty trace w sid c h
  refine ⟨hs, fun q => ?_⟩
  rw [hs, functions_getRandomFact_empty]

/-- Witness for C5: a session with a depleted history list, followed by a
further history request and a cats request in that session and a request of
a second session. -/
theorem claim_C5_depletion_persists_witness :
    effList (steps ⟨Globals.init, fun _ => ⟨some [], none, none⟩⟩
        [("s1", TurnAction.fact ⟨some "headquarters", false, 0⟩),
         ("s1", TurnAction.catFact ⟨none, false, 0⟩),
         ("s2", TurnAction.fact ⟨some "history", false, 0⟩)]) "s1" FCat.history = [] ∧
    (Functions.getRandomFact 0
        (effList (steps ⟨Globals.init, fun _ => ⟨some [], none, none⟩⟩
          [("s1", TurnAction.fact ⟨some "headquarters", false, 0⟩),
           ("s1", TurnAction.catFact ⟨none, false, 0⟩),
           ("s2", TurnAction.fact ⟨some "history", false, 0⟩)]) "s1" FCat.history)).1 = none := by
  have h := claim_C5_depletion_persists ⟨Globals.init, fun _ => ⟨some [], none, none⟩⟩
    "s1" FCat.history (by decide)
    [("s1", TurnAction.fact ⟨some "headquarters", false, 0⟩),
     ("s1", TurnAction.catFact ⟨none, false, 0⟩),
     ("s2", TurnAction.fact ⟨some "history", false, 0⟩)]
  exact ⟨h.1, h.2 0⟩
